import Mathlib

/-!
Verification of the buffer-interop core of the `opengl_demo` application
(`apps/opengl_demo/main.cpp`).

The demo constructs legacy Halide `buffer_t` descriptors for an 8-bit RGBA
interleaved image, runs an AOT-compiled filter under three data-residency
strategies (host-resident CPU, host-to-device staged OpenGL, and
texture-to-texture OpenGL), and tears down the device state at shutdown.

The embedding below mirrors the source. Host pointers are modelled as
abstract addresses (`Ptr`, with C's null pointer as `Option.none`); machine
`int` values are modelled as unbounded `Int` (the demo's dimensions come
from a decoded PNG and stay far from overflow). Calls into external
collaborators (the Halide OpenGL runtime, GLFW, the layout/PNG/timer
helpers) are recorded as events in an execution trace; the few external
calls whose effect on a descriptor matters are modelled from the spec and
say so in their doc comments.
-/

/-- Abstract host memory address. C's null pointer is `Option.none` at use
sites (`buffer_t.host : Option Ptr`). -/
abbrev Ptr := Nat

/-- A fixed-size four-slot array of 32-bit C integers (`int32_t x[4]`),
modelled with unbounded integers. -/
structure Arr4 where
  a0 : Int
  a1 : Int
  a2 : Int
  a3 : Int
deriving DecidableEq, Repr

/-- The all-zero array, as produced by C's `= {0}` aggregate
zero-initialization. -/
def Arr4.zero : Arr4 := ⟨0, 0, 0, 0⟩

/-- The legacy Halide `buffer_t` descriptor, as used by
`apps/opengl_demo/main.cpp`: a device handle, a host pointer, per-axis
extents, strides and mins, the scalar element size, and the two dirty
flags. -/
structure buffer_t where
  dev : Nat
  host : Option Ptr
  extent : Arr4
  stride : Arr4
  min : Arr4
  elem_size : Int
  host_dirty : Bool
  dev_dirty : Bool
deriving DecidableEq, Repr

/-- `buffer_t buf = {0};` — every field zero-initialized: null host
pointer, zero device handle, cleared flags, all-zero arrays. -/
def buffer_t.zeroInit : buffer_t :=
  { dev := 0
    host := none
    extent := Arr4.zero
    stride := Arr4.zero
    min := Arr4.zero
    elem_size := 0
    host_dirty := false
    dev_dirty := false }

/-- `create_buffer(int width, int height)` from `main.cpp`: initializes a
halide `buffer_t` for 8-bit RGBA data stored interleaved as rgbargba... in
row-major order. Starts from the zero-initialized struct and assigns
strides `[channels, channels*width, 1]`, element size 1, and extents
`[width, height, channels]` with `channels = 4`. -/
def create_buffer (width height : Int) : buffer_t :=
  let channels : Int := 4
  let elem_size : Int := 1
  let buf := buffer_t.zeroInit
  let buf := { buf with stride := { buf.stride with a0 := channels } }
  let buf := { buf with stride := { buf.stride with a1 := channels * width } }
  let buf := { buf with stride := { buf.stride with a2 := 1 } }
  let buf := { buf with elem_size := elem_size }
  let buf := { buf with extent := { buf.extent with a0 := width } }
  let buf := { buf with extent := { buf.extent with a1 := height } }
  let buf := { buf with extent := { buf.extent with a2 := channels } }
  buf

/-- Which of the two AOT-compiled filter entry points is being invoked. -/
inductive FilterKind where
  | cpu
  | opengl
deriving DecidableEq, Repr

/-- Which of a strategy's two local descriptors (`input_buf` or
`output_buf`) an external call operates on. -/
inductive Role where
  | input
  | output
deriving DecidableEq, Repr

/-- The four display quadrants of the demo's layout. -/
inductive Corner where
  | UL
  | UR
  | LL
  | LR
deriving DecidableEq, Repr

/-- One observable step of the program: each call the demo makes into an
external collaborator, recorded with its arguments at call time. -/
inductive Event where
  | timerStart (name : String)
  | timerReport
  | filterCall (kind : FilterKind) (input output : buffer_t) (status : Int)
  | copyToHost (role : Role) (buf : buffer_t)
  | wrapTexture (role : Role) (buf : buffer_t) (texture_id : Nat)
  | detachTexture (role : Role) (buf : buffer_t)
  | contextLost
  | setOpenglContext
  | glfwTerminate
  | stderrMsg (msg : String)
  | loadImage (filename : String)
  | layoutSetup (width height : Int)
  | glfwSetup
  | openglSetup
  | drawImage (corner : Corner) (data : Ptr) (width height : Int)
  | drawTexture (corner : Corner) (texture_id : Nat) (width height : Int)
  | callocBuf (size : Int) (result : Ptr)
  | freeBuf (p : Ptr)
  | createTexture (width height : Int) (data : Option Ptr) (result : Nat)
  | deleteTexture (texture_id : Nat)
deriving DecidableEq, Repr

/-- Modelled from the spec: `halide_opengl_wrap_texture` (declared in
`HalideRuntimeOpenGL.h`, implementation not in this repository) binds a
pre-existing device texture to the descriptor — the descriptor's opaque
device handle now refers to the texture; host pointer and shape fields are
untouched. -/
def halide_opengl_wrap_texture (buf : buffer_t) (texture_id : Nat) : buffer_t :=
  { buf with dev := texture_id }

/-- Modelled from the spec: `halide_opengl_detach_texture` (implementation
not in this repository) releases the runtime's association between the
descriptor and its device texture without destroying the texture; the
descriptor's device handle is cleared. -/
def halide_opengl_detach_texture (buf : buffer_t) : buffer_t :=
  { buf with dev := 0 }

/-- Modelled from the spec: `halide_copy_to_host` (implementation not in
this repository) synchronously forces any device-side result back to host
memory, after which the device copy is no longer newer than the host
copy. Pixel contents are outside this model. -/
def halide_copy_to_host (buf : buffer_t) : buffer_t :=
  { buf with dev_dirty := false }

/-- The external collaborators `main.cpp` links against, modelled from the
spec at their interface boundary: the two AOT-compiled filter entry points
(each takes the input and output descriptors and returns a status code;
their pixel processing is opaque to this layer), the two host result
allocations returned by `calloc`, and the two device texture handles
returned by `OpenGLHelpers::create_texture`. -/
structure Env where
  sample_filter_cpu : buffer_t → buffer_t → Int
  sample_filter_opengl : buffer_t → buffer_t → Int
  cpu_result_ptr : Ptr
  opengl_result_ptr : Ptr
  image_texture_id : Nat
  result_texture_id : Nat

/-- `run_cpu_filter` from `main.cpp`: builds input and output descriptors
with `create_buffer`, points them at the caller's image data and result
storage, and runs the CPU filter. Returns the trace of external calls (the
timing-report string is elided — it belongs to the out-of-scope timer
helper). -/
def run_cpu_filter (env : Env) (image_data result_data : Ptr)
    (width height : Int) : List Event :=
  let input_buf := create_buffer width height
  let input_buf := { input_buf with host := some image_data }
  let output_buf := create_buffer width height
  let output_buf := { output_buf with host := some result_data }
  let status := env.sample_filter_cpu input_buf output_buf
  [Event.timerStart "CPU",
   Event.filterCall FilterKind.cpu input_buf output_buf status,
   Event.timerReport]

/-- `run_opengl_filter_from_host_to_host` from `main.cpp`: input descriptor
points at host image data and is marked `host_dirty`; output descriptor
points at host result storage; the OpenGL filter runs, then
`halide_copy_to_host` is called on the output descriptor. -/
def run_opengl_filter_from_host_to_host (env : Env) (image_data result_data : Ptr)
    (width height : Int) : List Event :=
  let input_buf := create_buffer width height
  let input_buf := { input_buf with host := some image_data }
  let input_buf := { input_buf with host_dirty := true }
  let output_buf := create_buffer width height
  let output_buf := { output_buf with host := some result_data }
  let status := env.sample_filter_opengl input_buf output_buf
  [Event.timerStart "OpenGL host-to-host",
   Event.filterCall FilterKind.opengl input_buf output_buf status,
   Event.copyToHost Role.output output_buf,
   Event.timerReport]

/-- `run_opengl_filter_from_texture_to_texture` from `main.cpp`: both
descriptors are wrapped around pre-existing GPU textures (no host memory),
the OpenGL filter runs, and the textures are detached — output first, then
input. -/
def run_opengl_filter_from_texture_to_texture (env : Env)
    (input_texture_id output_texture_id : Nat) (width height : Int) : List Event :=
  let input_buf := create_buffer width height
  let input_wrapped := halide_opengl_wrap_texture input_buf input_texture_id
  let output_buf := create_buffer width height
  let output_wrapped := halide_opengl_wrap_texture output_buf output_texture_id
  let status := env.sample_filter_opengl input_wrapped output_wrapped
  [Event.timerStart "OpenGL texture-to-texture",
   Event.wrapTexture Role.input input_buf input_texture_id,
   Event.wrapTexture Role.output output_buf output_texture_id,
   Event.filterCall FilterKind.opengl input_wrapped output_wrapped status,
   Event.detachTexture Role.output output_wrapped,
   Event.detachTexture Role.input input_wrapped,
   Event.timerReport]

/-- The image returned by `PNGHelpers::load`: dimensions and an owned
pixel buffer. -/
structure Image where
  width : Int
  height : Int
  data : Ptr
deriving DecidableEq, Repr

/-- The observable outcome of one run of the program: the trace of external
calls and the process exit code. -/
structure RunResult where
  trace : List Event
  exit_code : Int
deriving DecidableEq, Repr

/-- `main` from `main.cpp`. With the wrong argument count it prints a usage
line to standard error and exits with code 1. Otherwise it loads the image,
sets up layout/GLFW/OpenGL, draws the original, runs the three strategies
(drawing each result), deletes the demo's textures, releases Halide's
OpenGL state (`halide_opengl_context_lost`), terminates GLFW, frees the
image, and returns 0. -/
def main_run (env : Env) (argv : List String) (image : Image) : RunResult :=
  if argv.length ≠ 2 then
    { trace := [Event.stderrMsg ("Usage: " ++ argv.headD "" ++ " filename")]
      exit_code := 1 }
  else
    let filename := argv.getD 1 ""
    let width := image.width
    let height := image.height
    { trace :=
        [Event.loadImage filename,
         Event.layoutSetup width height,
         Event.glfwSetup,
         Event.openglSetup,
         Event.drawImage Corner.UL image.data width height,
         Event.callocBuf (width * height * 4) env.cpu_result_ptr]
        ++ run_cpu_filter env image.data env.cpu_result_ptr width height
        ++ [Event.drawImage Corner.UR env.cpu_result_ptr width height,
            Event.freeBuf env.cpu_result_ptr,
            Event.callocBuf (width * height * 4) env.opengl_result_ptr]
        ++ run_opengl_filter_from_host_to_host env image.data env.opengl_result_ptr
             width height
        ++ [Event.drawImage Corner.LL env.opengl_result_ptr width height,
            Event.freeBuf env.opengl_result_ptr,
            Event.createTexture width height (some image.data) env.image_texture_id,
            Event.createTexture width height none env.result_texture_id]
        ++ run_opengl_filter_from_texture_to_texture env env.image_texture_id
             env.result_texture_id width height
        ++ [Event.drawTexture Corner.LR env.result_texture_id width height,
            Event.deleteTexture env.image_texture_id,
            Event.deleteTexture env.result_texture_id,
            Event.contextLost,
            Event.glfwTerminate,
            Event.freeBuf image.data]
      exit_code := 0 }

/-- `halide_opengl_create_context` from `main.cpp`: the global hook Halide
calls instead of allocating its own OpenGL context. It activates the
context created by the windowing helper (`GlfwHelpers::set_opengl_context`)
and returns 0. -/
def halide_opengl_create_context (_user_context : Unit) : List Event × Int :=
  ([Event.setOpenglContext], 0)

/-- Does the event record one of the two filter entry-point invocations? -/
def Event.isFilterCall : Event → Bool
  | Event.filterCall _ _ _ _ => true
  | _ => false

/-- Does the event record a `halide_opengl_wrap_texture` call? -/
def Event.isWrap : Event → Bool
  | Event.wrapTexture _ _ _ => true
  | _ => false

/-- Does the event record a `halide_opengl_detach_texture` call? -/
def Event.isDetach : Event → Bool
  | Event.detachTexture _ _ => true
  | _ => false

/-- Does the event record a `halide_copy_to_host` call? -/
def Event.isCopyToHost : Event → Bool
  | Event.copyToHost _ _ => true
  | _ => false

/-- Does the event record `halide_opengl_context_lost`? -/
def Event.isContextLost : Event → Bool
  | Event.contextLost => true
  | _ => false

/-- Does the event record `GlfwHelpers::terminate`? -/
def Event.isGlfwTerminate : Event → Bool
  | Event.glfwTerminate => true
  | _ => false

/-- Is the event a filter invocation, a texture wrap, or a texture detach —
the device-interop calls whose ordering relative to teardown matters? -/
def Event.isDeviceOp (e : Event) : Bool :=
  e.isFilterCall || e.isWrap || e.isDetach

/-- Does the event operate on the strategy's `output_buf` descriptor (the
filter touches both descriptors)? -/
def Event.touchesOutput : Event → Bool
  | Event.filterCall _ _ _ _ => true
  | Event.copyToHost Role.output _ => true
  | Event.wrapTexture Role.output _ _ => true
  | Event.detachTexture Role.output _ => true
  | _ => false

/-- All descriptor values the event carries. -/
def Event.buffersOf : Event → List buffer_t
  | Event.filterCall _ i o _ => [i, o]
  | Event.copyToHost _ b => [b]
  | Event.wrapTexture _ b _ => [b]
  | Event.detachTexture _ b => [b]
  | _ => []

/-- C1: for every `width > 0` and `height > 0`, `create_buffer` returns a
descriptor with `stride[0] = 4`, `stride[1] = 4*width`, `stride[2] = 1`,
`extent[0] = width`, `extent[1] = height`, `extent[2] = 4` (channel count),
element size 1, a null host pointer, and `host_dirty = false`. The builder
is a total pure function, so the construction has no side effects and never
fails for positive dimensions. -/
theorem C1_create_buffer_descriptor (width height : Int)
    (hw : 0 < width) (hh : 0 < height) :
    (create_buffer width height).stride.a0 = 4 ∧
    (create_buffer width height).stride.a1 = 4 * width ∧
    (create_buffer width height).stride.a2 = 1 ∧
    (create_buffer width height).extent.a0 = width ∧
    (create_buffer width height).extent.a1 = height ∧
    (create_buffer width height).extent.a2 = 4 ∧
    (create_buffer width height).elem_size = 1 ∧
    (create_buffer width height).host = none ∧
    (create_buffer width height).host_dirty = false :=
  ⟨rfl, rfl, rfl, rfl, rfl, rfl, rfl, rfl, rfl⟩

/-- Witness for C1 at `width = 3`, `height = 2`. -/
theorem C1_create_buffer_descriptor_witness :
    (0 : Int) < 3 ∧ (0 : Int) < 2 ∧
    ((create_buffer 3 2).stride.a0 = 4 ∧
     (create_buffer 3 2).stride.a1 = 4 * 3 ∧
     (create_buffer 3 2).stride.a2 = 1 ∧
     (create_buffer 3 2).extent.a0 = 3 ∧
     (create_buffer 3 2).extent.a1 = 2 ∧
     (create_buffer 3 2).extent.a2 = 4 ∧
     (create_buffer 3 2).elem_size = 1 ∧
     (create_buffer 3 2).host = none ∧
     (create_buffer 3 2).host_dirty = false) :=
  ⟨by decide, by decide, C1_create_buffer_descriptor 3 2 (by decide) (by decide)⟩

/-- C9: for every `width` and `height`, every field of the built descriptor
that `create_buffer` does not explicitly assign is zero, because the struct
is zero-initialized (`buffer_t buf = {0}`) before the strides, extents and
element size are set: the min offset is 0 on every axis, the device handle
is 0, the host pointer is null, both dirty flags are clear, and the unused
fourth stride and extent slots are 0. -/
theorem C9_create_buffer_zero_initialized (width height : Int) :
    (create_buffer width height).min = Arr4.zero ∧
    (create_buffer width height).dev = 0 ∧
    (create_buffer width height).host = none ∧
    (create_buffer width height).host_dirty = false ∧
    (create_buffer width height).dev_dirty = false ∧
    (create_buffer width height).stride.a3 = 0 ∧
    (create_buffer width height).extent.a3 = 0 :=
  ⟨rfl, rfl, rfl, rfl, rfl, rfl, rfl⟩

/-- C8: the process-wide device-context provider callback
`halide_opengl_create_context` activates the existing OpenGL context
created by the windowing helper (its only external call is
`GlfwHelpers::set_opengl_context`) and returns 0 on every invocation; it
never creates a context of its own. -/
theorem C8_context_provider_activates_existing (u : Unit) :
    (halide_opengl_create_context u).2 = 0 ∧
    (halide_opengl_create_context u).1 = [Event.setOpenglContext] :=
  ⟨rfl, rfl⟩

/-- C6: invoked with an argument count other than 2 (program name plus one
positional argument), the program writes a usage message to standard error
and exits with code 1 having done no other work; with exactly one
positional argument it runs to completion and returns exit code 0. -/
theorem C6_cli_usage_and_exit_codes (env : Env) (argv : List String)
    (image : Image) :
    (argv.length ≠ 2 ∧
      main_run env argv image =
        { trace := [Event.stderrMsg ("Usage: " ++ argv.headD "" ++ " filename")]
          exit_code := 1 }) ∨
    (argv.length = 2 ∧ (main_run env argv image).exit_code = 0) := by
  by_cases h : argv.length = 2
  · right
    refine ⟨h, ?_⟩
    simp [main_run, h]
  · left
    refine ⟨h, ?_⟩
    simp [main_run, h]

/-- C5: in every run of the host-resident strategy `run_cpu_filter`, the
filter is invoked with the input descriptor pointing at the caller's image
data and the output descriptor at the caller's result buffer, both with
`host_dirty = false`; the strategy performs no device operation — its trace
contains no wrap, detach or copy-to-host call. -/
theorem C5_run_cpu_filter_host_resident (env : Env)
    (image_data result_data : Ptr) (width height : Int) :
    ∃ i o s pre post,
      run_cpu_filter env image_data result_data width height
        = pre ++ Event.filterCall FilterKind.cpu i o s :: post ∧
      i.host = some image_data ∧
      o.host = some result_data ∧
      i.host_dirty = false ∧
      o.host_dirty = false ∧
      (run_cpu_filter env image_data result_data width height).all
        (fun e => !e.isWrap && !e.isDetach && !e.isCopyToHost) = true := by
  refine ⟨_, _, _, [Event.timerStart "CPU"], [Event.timerReport],
    rfl, rfl, rfl, rfl, rfl, ?_⟩
  simp [run_cpu_filter, Event.isWrap, Event.isDetach, Event.isCopyToHost]

/-- C2: in every run of the host-to-device-staged strategy
`run_opengl_filter_from_host_to_host`, the input descriptor passed to the
filter has `host_dirty = true` (set before the invocation), the output
descriptor has `host_dirty = false`, and after the filter invocation a
`halide_copy_to_host` call is made on the output descriptor; in the trace
it follows the filter call and no later event touches the output buffer
before the strategy returns. -/
theorem C2_host_to_host_staging_and_sync (env : Env)
    (image_data result_data : Ptr) (width height : Int) :
    ∃ i o s pre mid post,
      run_opengl_filter_from_host_to_host env image_data result_data width height
        = pre ++ Event.filterCall FilterKind.opengl i o s
            :: mid ++ Event.copyToHost Role.output o :: post ∧
      i.host_dirty = true ∧
      o.host_dirty = false ∧
      o.host = some result_data ∧
      post.all (fun e => !e.touchesOutput) = true := by
  refine ⟨_, _, _, [Event.timerStart "OpenGL host-to-host"], [],
    [Event.timerReport], rfl, rfl, rfl, rfl, ?_⟩
  simp [Event.touchesOutput]

/-- C3: in every run of the device-to-device strategy
`run_opengl_filter_from_texture_to_texture`, every descriptor recorded at
every external call has a null host pointer; the input and output
descriptors are each wrapped around their pre-existing texture before the
filter call, both are detached after it, the detaches come in reverse order
of the wraps (output before input), and these are the only wrap and detach
calls in the trace. -/
theorem C3_texture_to_texture_wrap_detach (env : Env)
    (input_texture_id output_texture_id : Nat) (width height : Int) :
    ∃ bi bo i o s do2 di2 post,
      run_opengl_filter_from_texture_to_texture env input_texture_id
          output_texture_id width height
        = [Event.timerStart "OpenGL texture-to-texture"]
            ++ Event.wrapTexture Role.input bi input_texture_id
            :: Event.wrapTexture Role.output bo output_texture_id
            :: Event.filterCall FilterKind.opengl i o s
            :: Event.detachTexture Role.output do2
            :: Event.detachTexture Role.input di2 :: post ∧
      (run_opengl_filter_from_texture_to_texture env input_texture_id
          output_texture_id width height).all
        (fun e => e.buffersOf.all (fun b => b.host == none)) = true ∧
      (run_opengl_filter_from_texture_to_texture env input_texture_id
          output_texture_id width height).countP Event.isWrap = 2 ∧
      (run_opengl_filter_from_texture_to_texture env input_texture_id
          output_texture_id width height).countP Event.isDetach = 2 := by
  refine ⟨_, _, _, _, _, _, _, [Event.timerReport], rfl, ?_, ?_, ?_⟩
  · simp [run_opengl_filter_from_texture_to_texture, Event.buffersOf,
      halide_opengl_wrap_texture, create_buffer, buffer_t.zeroInit]
  · simp [run_opengl_filter_from_texture_to_texture, List.countP_cons, Event.isWrap]
  · simp [run_opengl_filter_from_texture_to_texture, List.countP_cons, Event.isDetach]

/-- C10: in each of the three strategies the input and output descriptors
are built by `create_buffer` with the same width and height, so the single
filter invocation of each strategy receives descriptors with pairwise
identical extents, strides and element size. -/
theorem C10_filter_called_on_same_shapes (env : Env)
    (image_data result_data : Ptr) (input_texture_id output_texture_id : Nat)
    (width height : Int) :
    (∃ pre i o s post,
      run_cpu_filter env image_data result_data width height
        = pre ++ Event.filterCall FilterKind.cpu i o s :: post ∧
      i.extent = o.extent ∧ i.stride = o.stride ∧ i.elem_size = o.elem_size) ∧
    (run_cpu_filter env image_data result_data width height).countP
      Event.isFilterCall = 1 ∧
    (∃ pre i o s post,
      run_opengl_filter_from_host_to_host env image_data result_data width height
        = pre ++ Event.filterCall FilterKind.opengl i o s :: post ∧
      i.extent = o.extent ∧ i.stride = o.stride ∧ i.elem_size = o.elem_size) ∧
    (run_opengl_filter_from_host_to_host env image_data result_data
        width height).countP Event.isFilterCall = 1 ∧
    (∃ pre i o s post,
      run_opengl_filter_from_texture_to_texture env input_texture_id
          output_texture_id width height
        = pre ++ Event.filterCall FilterKind.opengl i o s :: post ∧
      i.extent = o.extent ∧ i.stride = o.stride ∧ i.elem_size = o.elem_size) ∧
    (run_opengl_filter_from_texture_to_texture env input_texture_id
        output_texture_id width height).countP Event.isFilterCall = 1 := by
  refine ⟨⟨[Event.timerStart "CPU"], _, _, _, [Event.timerReport],
      rfl, rfl, rfl, rfl⟩, ?_,
    ⟨[Event.timerStart "OpenGL host-to-host"], _, _, _,
      [Event.copyToHost Role.output
        { create_buffer width height with host := some result_data },
       Event.timerReport], rfl, rfl, rfl, rfl⟩, ?_,
    ⟨[Event.timerStart "OpenGL texture-to-texture",
      Event.wrapTexture Role.input (create_buffer width height) input_texture_id,
      Event.wrapTexture Role.output (create_buffer width height) output_texture_id],
      _, _, _,
      [Event.detachTexture Role.output
        (halide_opengl_wrap_texture (create_buffer width height) output_texture_id),
       Event.detachTexture Role.input
        (halide_opengl_wrap_texture (create_buffer width height) input_texture_id),
       Event.timerReport], rfl, rfl, rfl, rfl⟩, ?_⟩
  · simp [run_cpu_filter, List.countP_cons, Event.isFilterCall]
  · simp [run_opengl_filter_from_host_to_host, List.countP_cons, Event.isFilterCall]
  · simp [run_opengl_filter_from_texture_to_texture, List.countP_cons,
      Event.isFilterCall]

/-- C7: in every normal run (program name plus one argument), the trace of
`main` contains exactly one `halide_opengl_context_lost` call; every event
after it is free of filter invocations, texture wraps and texture detaches;
`GlfwHelpers::terminate` comes after it and never before it; and all three
filter invocations and both wrap and both detach calls of the run therefore
precede it. -/
theorem C7_context_lost_once_at_shutdown (env : Env)
    (prog filename : String) (image : Image) :
    ∃ pre post,
      (main_run env [prog, filename] image).trace
        = pre ++ Event.contextLost :: post ∧
      pre.countP Event.isContextLost = 0 ∧
      post.countP Event.isContextLost = 0 ∧
      post.all (fun e => !e.isDeviceOp) = true ∧
      pre.countP Event.isGlfwTerminate = 0 ∧
      post.countP Event.isGlfwTerminate = 1 ∧
      pre.countP Event.isFilterCall = 3 ∧
      pre.countP Event.isWrap = 2 ∧
      pre.countP Event.isDetach = 2 := by
  refine ⟨[Event.loadImage filename,
      Event.layoutSetup image.width image.height,
      Event.glfwSetup,
      Event.openglSetup,
      Event.drawImage Corner.UL image.data image.width image.height,
      Event.callocBuf (image.width * image.height * 4) env.cpu_result_ptr]
      ++ run_cpu_filter env image.data env.cpu_result_ptr image.width image.height
      ++ [Event.drawImage Corner.UR env.cpu_result_ptr image.width image.height,
          Event.freeBuf env.cpu_result_ptr,
          Event.callocBuf (image.width * image.height * 4) env.opengl_result_ptr]
      ++ run_opengl_filter_from_host_to_host env image.data env.opengl_result_ptr
          image.width image.height
      ++ [Event.drawImage Corner.LL env.opengl_result_ptr image.width image.height,
          Event.freeBuf env.opengl_result_ptr,
          Event.createTexture image.width image.height (some image.data)
            env.image_texture_id,
          Event.createTexture image.width image.height none env.result_texture_id]
      ++ run_opengl_filter_from_texture_to_texture env env.image_texture_id
          env.result_texture_id image.width image.height
      ++ [Event.drawTexture Corner.LR env.result_texture_id image.width image.height,
          Event.deleteTexture env.image_texture_id,
          Event.deleteTexture env.result_texture_id],
    [Event.glfwTerminate, Event.freeBuf image.data],
    ?_, ?_, ?_, ?_, ?_, ?_, ?_, ?_, ?_⟩
  · simp [main_run, run_cpu_filter, run_opengl_filter_from_host_to_host,
      run_opengl_filter_from_texture_to_texture]
  · simp [run_cpu_filter, run_opengl_filter_from_host_to_host,
      run_opengl_filter_from_texture_to_texture, List.countP_cons,
      List.countP_append, Event.isContextLost]
  · simp [List.countP_cons, Event.isContextLost]
  · simp [Event.isDeviceOp, Event.isFilterCall, Event.isWrap, Event.isDetach]
  · simp [run_cpu_filter, run_opengl_filter_from_host_to_host,
      run_opengl_filter_from_texture_to_texture, List.countP_cons,
      List.countP_append, Event.isGlfwTerminate]
  · simp [List.countP_cons, Event.isGlfwTerminate]
  · simp [run_cpu_filter, run_opengl_filter_from_host_to_host,
      run_opengl_filter_from_texture_to_texture, List.countP_cons,
      List.countP_append, Event.isFilterCall]
  · simp [run_cpu_filter, run_opengl_filter_from_host_to_host,
      run_opengl_filter_from_texture_to_texture, List.countP_cons,
      List.countP_append, Event.isWrap]
  · simp [run_cpu_filter, run_opengl_filter_from_host_to_host,
      run_opengl_filter_from_texture_to_texture, List.countP_cons,
      List.countP_append, Event.isDetach]

/-- A concrete external environment for evaluating the model: the CPU
filter entry point reports failure (status 1), the OpenGL one success. -/
def exEnv : Env where
  sample_filter_cpu := fun _ _ => 1
  sample_filter_opengl := fun _ _ => 0
  cpu_result_ptr := 200
  opengl_result_ptr := 300
  image_texture_id := 7
  result_texture_id := 8

/-- C4 counterexample: with a CPU filter entry point that returns the
nonzero status 1, the run does not terminate at that invocation — the
trace continues past it (`halide_opengl_context_lost` still occurs 23
events later) and the process still exits with code 0. `main.cpp` discards
the status codes of `sample_filter_cpu` and `sample_filter_opengl`, so a
nonzero status is not treated as fatal. -/
theorem C4_counterexample_status_ignored :
    (main_run exEnv ["opengl_demo", "image.png"]
        { width := 4, height := 1, data := 100 }).trace.get? 7
      = some (Event.filterCall FilterKind.cpu
          { create_buffer 4 1 with host := some 100 }
          { create_buffer 4 1 with host := some 200 } 1) ∧
    (main_run exEnv ["opengl_demo", "image.png"]
        { width := 4, height := 1, data := 100 }).trace.get? 30
      = some Event.contextLost ∧
    (main_run exEnv ["opengl_demo", "image.png"]
        { width := 4, height := 1, data := 100 }).exit_code = 0 := by
  refine ⟨?_, ?_, ?_⟩ <;> rfl

/-- C4 as amended: every invocation of a compiled filter entry point
returns a status code, but the core discards it — whatever statuses the
entry points return, the run continues with all subsequent steps (device
teardown and window termination still occur after the CPU filter call) and
the process exits with code 0. -/
theorem C4_amended_statuses_discarded (env : Env)
    (prog filename : String) (image : Image) :
    ∃ pre i o post,
      (main_run env [prog, filename] image).trace
        = pre ++ Event.filterCall FilterKind.cpu i o
            (env.sample_filter_cpu i o) :: post ∧
      Event.contextLost ∈ post ∧
      Event.glfwTerminate ∈ post ∧
      (main_run env [prog, filename] image).exit_code = 0 := by
  refine ⟨[Event.loadImage filename,
      Event.layoutSetup image.width image.height,
      Event.glfwSetup,
      Event.openglSetup,
      Event.drawImage Corner.UL image.data image.width image.height,
      Event.callocBuf (image.width * image.height * 4) env.cpu_result_ptr,
      Event.timerStart "CPU"],
    { create_buffer image.width image.height with host := some image.data },
    { create_buffer image.width image.height with host := some env.cpu_result_ptr },
    [Event.timerReport,
      Event.drawImage Corner.UR env.cpu_result_ptr image.width image.height,
      Event.freeBuf env.cpu_result_ptr,
      Event.callocBuf (image.width * image.height * 4) env.opengl_result_ptr]
      ++ run_opengl_filter_from_host_to_host env image.data env.opengl_result_ptr
          image.width image.height
      ++ [Event.drawImage Corner.LL env.opengl_result_ptr image.width image.height,
          Event.freeBuf env.opengl_result_ptr,
          Event.createTexture image.width image.height (some image.data)
            env.image_texture_id,
          Event.createTexture image.width image.height none env.result_texture_id]
      ++ run_opengl_filter_from_texture_to_texture env env.image_texture_id
          env.result_texture_id image.width image.height
      ++ [Event.drawTexture Corner.LR env.result_texture_id image.width image.height,
          Event.deleteTexture env.image_texture_id,
          Event.deleteTexture env.result_texture_id,
          Event.contextLost,
          Event.glfwTerminate,
          Event.freeBuf image.data],
    ?_, ?_, ?_, rfl⟩
  · simp [main_run, run_cpu_filter, run_opengl_filter_from_host_to_host,
      run_opengl_filter_from_texture_to_texture]
  · simp
  · simp
